import Mathlib

/-!
Shallow embedding of the speech-performance analysis engine of the
AI-Teleprompter repository (`src/utils/analysisEngine.js` and
`src/utils/stutteringAnalyzer.js`), together with theorems settling
claims C1 to C10 about it.

Modelling conventions:
* JavaScript numbers are modelled by exact rationals (`ℚ`).
* JavaScript `null`/`undefined` string inputs behave identically to the
  empty string in every guard of this engine (all guards are truthiness
  tests), so transcripts are modelled as `Option String` and the guards
  test `strFalsy` (none or empty).  `null`/`undefined` word and volume
  arrays behave identically to `[]` in every guard (all guards compare
  `.length` against a positive bound), so arrays are modelled as lists.
* A JavaScript object field that is absent on some code path (the early
  return of `detectBlocks` omits `severeCount`; some analyzer branches
  omit optional fields) is modelled as `Option _` with `none` for the
  missing field.  Arithmetic on such a missing field yields IEEE `NaN`;
  the fields that can carry `NaN` (`fluencyScore` and the scores computed
  from it) are therefore modelled as `Option ℚ` with `none` for `NaN`.
-/

namespace Teleprompter

/-- JS `Math.round`: round half towards positive infinity. -/
def jsRound (q : ℚ) : ℚ := ((⌊q + 1/2⌋ : ℤ) : ℚ)

/-- `Math.max(0, Math.min(100, x))`, the clamp used by every score. -/
def clamp100 (q : ℚ) : ℚ := max 0 (min 100 q)

/-- `Math.round(x * 100) / 100`, the two-decimal rounding used for durations. -/
def round2 (q : ℚ) : ℚ := jsRound (q * 100) / 100

/-- `Math.round(Math.sqrt q)` for `q ≥ 0`, computed exactly on rationals:
the result is the unique `n` with `(n - 1/2)^2 ≤ q < (n + 1/2)^2`
(halves round up, as in JS). -/
def sqrtRound (q : ℚ) : ℕ :=
  let c := Nat.sqrt ⌊q⌋.toNat
  if ((2 * c + 1 : ℚ))^2 ≤ 4 * q then c + 1 else c

/-- `reduce((a, b) => a + b, 0)`. -/
def qsum (l : List ℚ) : ℚ := l.foldl (· + ·) 0

/-- Truthiness test `!transcript` of JS: `null`, `undefined` and `""` are falsy. -/
def strFalsy : Option String → Bool
  | none => true
  | some s => s == ""

/-- Insertion step of the stable descending sort. -/
def insDescBy {α : Type} (key : α → ℚ) (a : α) : List α → List α
  | [] => [a]
  | b :: bs => if key b ≤ key a then a :: b :: bs else b :: insDescBy key a bs

/-- Stable descending sort by a rational key, matching JS
`Array.prototype.sort((x, y) => key y - key x)` (JS sort is stable). -/
def sortDescBy {α : Type} (key : α → ℚ) : List α → List α
  | [] => []
  | a :: rest => insDescBy key a (sortDescBy key rest)

/-- Word-level timestamp entry `{word, start, end}` (seconds). -/
structure Word where
  word : String
  start : ℚ
  «end» : ℚ
deriving DecidableEq, Repr

/-- Volume sample `{timestamp, level}`. -/
structure VolumeSample where
  timestamp : ℚ
  level : ℚ
deriving DecidableEq, Repr

/-! ### PAUSE_THRESHOLDS (analysisEngine.js) -/

def PAUSE_MICRO : ℚ := 0.1
def PAUSE_SHORT : ℚ := 0.3
def PAUSE_STRATEGIC : ℚ := 0.8
def PAUSE_TRANSITION : ℚ := 2.0
def PAUSE_TOO_LONG : ℚ := 4.0

/-- A recorded pause of `analyzeStrategicPauses`. -/
structure Pause where
  duration : ℚ
  afterWord : String
  beforeWord : String
  timestamp : ℚ
  type : String
deriving DecidableEq, Repr

/-- The scan loop of `analyzeStrategicPauses`: for each adjacent pair with
`gap = words[i].start - words[i-1].end ≥ 0.3` record a typed pause
(`long` if `gap ≥ 4.0`, `strategic` if `0.8 ≤ gap < 4.0`, else `short`). -/
def pausesOf : Word → List Word → List Pause
  | _, [] => []
  | prev, w :: rest =>
    let gap := w.start - prev.«end»
    let tail := pausesOf w rest
    if PAUSE_SHORT ≤ gap then
      { duration := round2 gap
        afterWord := prev.word
        beforeWord := w.word
        timestamp := prev.«end»
        type := if PAUSE_TOO_LONG ≤ gap then "long"
                else if PAUSE_STRATEGIC ≤ gap then "strategic"
                else "short" } :: tail
    else tail

/-- Result object of `analyzeStrategicPauses`. -/
structure PauseAnalysis where
  totalPauses : ℕ
  strategicPauses : ℕ
  shortPauses : ℕ
  tooLongPauses : ℕ
  avgPauseDuration : ℚ
  pauseScore : ℚ
  pauseDistribution : List Pause
  feedback : String
deriving DecidableEq, Repr

/-- `analyzeStrategicPauses` (analysisEngine.js, Habit 1).  The source
increments the three counters inside the same loop that records the pauses;
since the recorded `type` determines the bucket uniquely, the counters are
computed here by filtering the recorded list, which yields the same values. -/
def analyzeStrategicPauses (words : List Word) : PauseAnalysis :=
  if words.length < 5 then
    { totalPauses := 0, strategicPauses := 0, shortPauses := 0
      tooLongPauses := 0, avgPauseDuration := 0, pauseScore := 50
      pauseDistribution := []
      feedback := "Not enough data for pause analysis" }
  else
    let pauses : List Pause := match words with
      | [] => []
      | w :: rest => pausesOf w rest
    let shortCnt : ℕ := (pauses.filter (fun p => p.type == "short")).length
    let strategicCnt : ℕ := (pauses.filter (fun p => p.type == "strategic")).length
    let tooLongCnt : ℕ := (pauses.filter (fun p => p.type == "long")).length
    let avgDuration : ℚ :=
      if 0 < pauses.length then qsum (pauses.map (·.duration)) / pauses.length else 0
    let strategicRatio : ℚ :=
      (strategicCnt : ℚ) / (if words.length = 0 then 1 else (words.length : ℚ))
    let s1 : ℚ := 70 + (if 0.05 < strategicRatio then 15 else 0)
    let s2 : ℚ := s1 - (if 0.15 < strategicRatio then 5 else 0)
    let s3 : ℚ := s2 - (tooLongCnt : ℚ) * 10
    let s4 : ℚ := if pauses.length = 0 then 30 else s3
    let feedback :=
      if pauses.length = 0 then
        "Slow down. Add pauses between sentences to let ideas land."
      else if strategicCnt = 0 then
        "You pause briefly, but try longer pauses (1s+) for emphasis."
      else if 1 < tooLongCnt then
        "Some awkward silences detected. Keep pauses under 3 seconds."
      else if strategicCnt * 3 < shortCnt then
        "Mostly short pauses. Use longer pauses to separate big ideas."
      else "Great rhythm! Good mix of flow and emphasis pauses."
    { totalPauses := pauses.length
      strategicPauses := strategicCnt
      shortPauses := shortCnt
      tooLongPauses := tooLongCnt
      avgPauseDuration := round2 avgDuration
      pauseScore := clamp100 (jsRound s4)
      pauseDistribution := (sortDescBy (·.duration) pauses).take 5
      feedback := feedback }

/-! ### stutteringAnalyzer.js thresholds and block detection -/

def BLOCK_THRESHOLD : ℚ := 0.5
def SEVERE_BLOCK_THRESHOLD : ℚ := 1.0
def NORMAL_WORD_GAP : ℚ := 0.15

/-- A detected block (abnormal inter-word pause). -/
structure Block where
  beforeWord : String
  afterWord : String
  duration : ℚ
  timestamp : ℚ
  isSevere : Bool
deriving DecidableEq, Repr

/-- The scan loop of `detectBlocks` over adjacent word pairs. -/
def blocksOf : Word → List Word → List Block
  | _, [] => []
  | prev, w :: rest =>
    let gap := w.start - prev.«end»
    let tail := blocksOf w rest
    if BLOCK_THRESHOLD ≤ gap then
      { beforeWord := prev.word
        afterWord := w.word
        duration := round2 gap
        timestamp := prev.«end»
        isSevere := decide (SEVERE_BLOCK_THRESHOLD ≤ gap) } :: tail
    else tail

/-- Result of `detectBlocks`.  The early return for fewer than two words
omits the `severeCount` key, modelled by `none`. -/
structure BlocksResult where
  blocks : List Block
  count : ℕ
  severeCount : Option ℕ
  severity : String
deriving DecidableEq, Repr

/-- `detectBlocks` (stutteringAnalyzer.js). -/
def detectBlocks (words : List Word) : BlocksResult :=
  if words.length < 2 then
    { blocks := [], count := 0, severeCount := none, severity := "none" }
  else
    let blocks : List Block := match words with
      | [] => []
      | w :: rest => blocksOf w rest
    let severeBlocks : ℕ := (blocks.filter (·.isSevere)).length
    let severity :=
      if 5 < blocks.length ∨ 2 < severeBlocks then "high"
      else if 2 < blocks.length ∨ 0 < severeBlocks then "moderate"
      else if 0 < blocks.length then "mild"
      else "none"
    { blocks := blocks
      count := blocks.length
      severeCount := some severeBlocks
      severity := severity }

/-- Adjacent pairs `(words[i-1], words[i])` of a word list. -/
def adjPairs : List Word → List (Word × Word)
  | [] => []
  | [_] => []
  | a :: b :: rest => (a, b) :: adjPairs (b :: rest)

/-- Specification form of one step of the block scan. -/
def blockOfPair (p : Word × Word) : Option Block :=
  let gap := p.2.start - p.1.«end»
  if BLOCK_THRESHOLD ≤ gap then
    some { beforeWord := p.1.word
           afterWord := p.2.word
           duration := round2 gap
           timestamp := p.1.«end»
           isSevere := decide (SEVERE_BLOCK_THRESHOLD ≤ gap) }
  else none

/-! ### String utilities

The engine works on JS strings with `split(/\s+/)`, `split(/[.!?]+/)`,
`toLowerCase`, `trim`, `includes`, `indexOf` scans and per-phrase regex
counting.  These are modelled below on `List Char`.  JS `\s` and Lean
`Char.isWhitespace` agree on the ASCII whitespace appearing in transcripts;
`toLowerCase`/`String.toLower` agree on ASCII letters. -/

/-- Worker for `splitRuns`: splitting on maximal runs of separator
characters, keeping leading/trailing empty pieces, exactly like JS
`String.prototype.split` with a `/sep+/` regex. -/
def splitRunsAux (p : Char → Bool) : List Char → List Char → List String
  | [], acc => [String.mk acc.reverse]
  | c :: cs, acc =>
    if p c then String.mk acc.reverse :: splitRunsAux p (cs.dropWhile p) []
    else splitRunsAux p cs (c :: acc)
termination_by cs _ => cs.length
decreasing_by
  all_goals simp_wf
  all_goals
    have hd : (cs.dropWhile p).length ≤ cs.length := by
      induction cs with
      | nil => simp
      | cons a t ih =>
        rw [List.dropWhile]
        split
        · exact Nat.le_succ_of_le ih
        · exact Nat.le_refl _
    omega

/-- JS `s.split(/sep+/)` for a character-class separator. -/
def splitRuns (p : Char → Bool) (s : String) : List String :=
  splitRunsAux p s.toList []

/-- JS `s.split(/\s+/)`. -/
def splitWs (s : String) : List String := splitRuns (·.isWhitespace) s

/-- JS `s.split(/[.!?]+/)` used for sentence splitting. -/
def splitSent (s : String) : List String :=
  splitRuns (fun c => c == '.' || c == '!' || c == '?') s

/-- JS `arr.join(h)` with a single space. -/
def joinSpace (l : List String) : String := String.intercalate " " l

/-- `word.replace(/[.,!?;:]/g, h)` removing those punctuation characters. -/
def stripPunct (s : String) : String :=
  String.mk (s.toList.filter (fun c =>
    !(c == '.' || c == ',' || c == '!' || c == '?' || c == ';' || c == ':')))

/-- Number of positions at which `pat` occurs in `s` (occurrences may
overlap), matching the `indexOf(f, idx + 1)` scan of `detectFillerWords`. -/
def countOccAll (pat : List Char) : List Char → ℕ
  | [] => 0
  | c :: rest => (if pat.isPrefixOf (c :: rest) then 1 else 0) + countOccAll pat rest

/-- Fuel-driven worker for `countLit`.  The fuel is the string length; every
step consumes at least one character for the non-empty patterns used here,
so the fuel never runs out before the string does. -/
def countLitF (pat : List Char) : ℕ → List Char → ℕ
  | 0, _ => 0
  | _, [] => 0
  | Nat.succ fuel, c :: rest =>
    if pat.isPrefixOf (c :: rest) && !pat.isEmpty then
      1 + countLitF pat fuel ((c :: rest).drop pat.length)
    else countLitF pat fuel rest

/-- Number of matches of `lower.match(new RegExp(literal, "gi"))` for a
literal pattern: non-overlapping left-to-right occurrences. -/
def countLit (pat : List Char) (s : List Char) : ℕ := countLitF pat s.length s

/-- Matching one whitespace-tolerant phrase (`phrase.replace(/\s+/g, backslash-s-plus)`):
each pattern word literally, separated by at least one whitespace character
(the regex consumes the maximal run; the following pattern character is a
letter, so greediness is exact).  Returns the rest of the string after the
match. -/
def matchWsSeq : List (List Char) → List Char → Option (List Char)
  | [], s => some s
  | [w], s => if w.isPrefixOf s then some (s.drop w.length) else none
  | w :: w2 :: ws, s =>
    if w.isPrefixOf s then
      let s1 := s.drop w.length
      let spaces := s1.takeWhile (·.isWhitespace)
      if spaces.length = 0 then none
      else matchWsSeq (w2 :: ws) (s1.drop spaces.length)
    else none

/-- Fuel-driven worker for `countWsMatches` (fuel = string length, as above). -/
def countWsF (pws : List (List Char)) : ℕ → List Char → ℕ
  | 0, _ => 0
  | _, [] => 0
  | Nat.succ fuel, c :: rest =>
    match matchWsSeq pws (c :: rest) with
    | some remaining => 1 + countWsF pws fuel remaining
    | none => countWsF pws fuel rest

/-- Number of non-overlapping matches of a whitespace-tolerant phrase. -/
def countWsMatches (pws : List (List Char)) (s : List Char) : ℕ := countWsF pws s.length s

/-- The pattern words of a hedging phrase. -/
def phraseWords (p : String) : List (List Char) := (splitWs p).map (·.toList)

/-- JS `s.includes(pat)`: substring containment. -/
def containsSub (pat : List Char) : List Char → Bool
  | [] => pat.isEmpty
  | c :: rest => pat.isPrefixOf (c :: rest) || containsSub pat rest

/-- Ordered association-list update `occurrences[k] = (occurrences[k] || 0) + n`:
JS objects preserve first-insertion order of keys. -/
def addCount (k : String) (n : ℕ) : List (String × ℕ) → List (String × ℕ)
  | [] => [(k, n)]
  | (k', m) :: rest => if k' == k then (k', m + n) :: rest else (k', m) :: addCount k n rest

/-! ### FILLER_WORDS and detectFillerWords -/

def FILLER_WORDS : List String :=
  ["um", "uh", "er", "ah", "like", "you know", "basically", "actually",
   "literally", "honestly", "so", "well", "i mean", "right", "okay"]

/-- An `{word, count}` entry of the occurrence list. -/
structure WordCount where
  word : String
  count : ℕ
deriving DecidableEq, Repr

/-- Result object of `detectFillerWords`. -/
structure FillerAnalysis where
  count : ℕ
  occurrences : List WordCount
  positions : List ℕ
deriving DecidableEq, Repr

/-- `detectFillerWords` (analysisEngine.js). -/
def detectFillerWords (transcript : Option String) : FillerAnalysis :=
  if strFalsy transcript then { count := 0, occurrences := [], positions := [] }
  else
    let lower := (transcript.getD "").toLower
    let words := splitWs lower
    let step := fun (acc : List (String × ℕ) × List ℕ) (iw : ℕ × String) =>
      let cleanWord := stripPunct iw.2
      if FILLER_WORDS.contains cleanWord then (addCount cleanWord 1 acc.1, acc.2 ++ [iw.1])
      else acc
    let singles := words.enum.foldl step ([], [])
    let multis := FILLER_WORDS.filter (fun f => f.contains ' ')
    let occ := multis.foldl (fun acc f =>
      let c := countOccAll f.toList lower.toList
      if 0 < c then addCount f c acc else acc) singles.1
    let occurrencesList := sortDescBy (fun w => (w.count : ℚ))
      (occ.map (fun p => WordCount.mk p.1 p.2))
    { count := (occurrencesList.map (·.count)).foldl (· + ·) 0
      occurrences := occurrencesList
      positions := singles.2 }

/-! ### HEDGING_PHRASES and detectHedgingLanguage -/

def HEDGING_PHRASES : List String :=
  ["i think maybe", "kind of", "sort of", "maybe", "possibly", "potentially",
   "i guess", "i suppose", "probably", "might be", "could be", "not sure but",
   "i was thinking", "perhaps", "somewhat", "a little bit"]

/-- An `{phrase, count}` entry of the hedge list. -/
structure HedgeOcc where
  phrase : String
  count : ℕ
deriving DecidableEq, Repr

/-- Result object of `detectHedgingLanguage`. -/
structure HedgingAnalysis where
  hedgingCount : ℕ
  hedgingPhrases : List HedgeOcc
  declarativeScore : ℚ
  feedback : String
deriving DecidableEq, Repr

/-- `detectHedgingLanguage` (analysisEngine.js, Habit 3). -/
def detectHedgingLanguage (transcript : Option String) : HedgingAnalysis :=
  if strFalsy transcript then
    { hedgingCount := 0, hedgingPhrases := [], declarativeScore := 100
      feedback := "No transcript to analyze" }
  else
    let t := transcript.getD ""
    let lower := t.toLower
    let foundHedges := HEDGING_PHRASES.foldl (fun acc phrase =>
      let c := countWsMatches (phraseWords phrase) lower.toList
      if 0 < c then acc ++ [HedgeOcc.mk phrase c] else acc) []
    let hedgingCount : ℕ := (foundHedges.map (·.count)).foldl (· + ·) 0
    let sorted := sortDescBy (fun h => (h.count : ℚ)) foundHedges
    let wordCount := (splitWs t.trim).length
    let hedgingRatio : ℚ := if 0 < wordCount then (hedgingCount : ℚ) / (wordCount : ℚ) else 0
    let declarativeScore :=
      clamp100 (jsRound (100 - hedgingRatio * 400 - (hedgingCount : ℚ) * 3))
    let feedback :=
      if hedgingCount = 0 then "Excellent! You speak with confidence and conviction."
      else if hedgingCount ≤ 2 then "Good clarity. Minor hedging detected."
      else if hedgingCount ≤ 5 then
        "Try replacing \"" ++ (match sorted.head? with
          | some h => h.phrase
          | none => "undefined") ++ "\" with a direct statement."
      else "Use more declarative statements. Say what you mean directly."
    { hedgingCount := hedgingCount
      hedgingPhrases := sorted.take 5
      declarativeScore := declarativeScore
      feedback := feedback }

/-! ### analyzeThoughtCompletion -/

/-- Result object of `analyzeThoughtCompletion`.  The early return omits the
`veryLongSentences` and `sentenceCount` keys, modelled by `none`. -/
structure ThoughtCompletion where
  avgSentenceLength : ℚ
  longSentences : ℕ
  veryLongSentences : Option ℕ
  sentenceCount : Option ℕ
  completionScore : ℚ
  feedback : String
deriving DecidableEq, Repr

/-- `analyzeThoughtCompletion` (analysisEngine.js, Habit 7). -/
def analyzeThoughtCompletion (transcript : Option String) : ThoughtCompletion :=
  if strFalsy transcript ∨ (transcript.getD "").length < 20 then
    { avgSentenceLength := 0, longSentences := 0, veryLongSentences := none
      sentenceCount := none, completionScore := 50
      feedback := "Not enough text to analyze" }
  else
    let t := transcript.getD ""
    let sentences := (splitSent t).filter (fun s => decide (0 < s.trim.length))
    let sentenceWordCounts := sentences.map (fun s => (splitWs s.trim).length)
    let avgLength : ℚ :=
      if 0 < sentenceWordCounts.length then
        jsRound ((qsum (sentenceWordCounts.map (fun c => (c : ℚ)))) / sentenceWordCounts.length)
      else 0
    let longSentences := (sentenceWordCounts.filter (fun c => decide (25 < c))).length
    let veryLongSentences := (sentenceWordCounts.filter (fun c => decide (40 < c))).length
    let completionScore :=
      clamp100 (jsRound (90 - (longSentences : ℚ) * 5 - (veryLongSentences : ℚ) * 10))
    let feedback :=
      if 0 < veryLongSentences then "Break up very long sentences. One idea, then pause."
      else if 2 < longSentences then "Some sentences are long. Try finishing thoughts sooner."
      else if avgLength < 5 then "Sentences are quite short\x27try expanding key points."
      else "Great sentence structure! You complete thoughts clearly."
    { avgSentenceLength := avgLength
      longSentences := longSentences
      veryLongSentences := some veryLongSentences
      sentenceCount := some sentences.length
      completionScore := completionScore
      feedback := feedback }


/-! ### FRAMEWORK_MARKERS and detectFrameworks -/

def FRAMEWORK_CONTEXT : List String :=
  ["as you know", "given that", "since", "because", "the situation is",
   "the goal is", "we need to"]

def FRAMEWORK_CORE : List String :=
  ["the point is", "the main idea", "in short", "my recommendation",
   "we should", "i propose", "the key is"]

def FRAMEWORK_CONNECT : List String :=
  ["this means", "this will allow", "as a result", "the benefit",
   "for you", "this matters because", "what this gives us"]

/-- Result object of `detectFrameworks`. -/
structure FrameworkDetection where
  hasContext : Bool
  hasCore : Bool
  hasConnect : Bool
  frameworkScore : ℚ
  feedback : String
deriving DecidableEq, Repr

/-- `detectFrameworks` (analysisEngine.js, Habit 8). -/
def detectFrameworks (transcript : Option String) : FrameworkDetection :=
  if strFalsy transcript then
    { hasContext := false, hasCore := false, hasConnect := false
      frameworkScore := 0, feedback := "No transcript to analyze" }
  else
    let lower := (transcript.getD "").toLower
    let contextFound := FRAMEWORK_CONTEXT.any (fun m => containsSub m.toList lower.toList)
    let coreFound := FRAMEWORK_CORE.any (fun m => containsSub m.toList lower.toList)
    let connectFound := FRAMEWORK_CONNECT.any (fun m => containsSub m.toList lower.toList)
    let partsFound : ℕ := (if contextFound then 1 else 0) +
      (if coreFound then 1 else 0) + (if connectFound then 1 else 0)
    let frameworkScore := jsRound ((partsFound : ℚ) / 3 * 100)
    let feedback :=
      if partsFound = 3 then "Excellent! You used Context-Core-Connect framework."
      else if partsFound = 2 then
        "Good structure! Add more " ++
          (if !contextFound then "context" else if !coreFound then "core point"
           else "connection") ++ "."
      else if partsFound = 1 then "Try structuring responses with Context → Core → Connect."
      else "Structure your message: Why (context), What (core), So what (connect)."
    { hasContext := contextFound, hasCore := coreFound, hasConnect := connectFound
      frameworkScore := frameworkScore, feedback := feedback }

/-! ### ANALOGY_MARKERS and detectAnalogies -/

def ANALOGY_MARKERS : List String :=
  ["like a", "similar to", "imagine", "think of it as", "just like",
   "in the same way", "it\x27s like", "picture this", "for example",
   "comparable to", " as if", "reminds me of"]

/-- An `{marker, count}` entry of the analogy list. -/
structure AnalogyOcc where
  marker : String
  count : ℕ
deriving DecidableEq, Repr

/-- Result object of `detectAnalogies`. -/
structure AnalogyDetection where
  analogyCount : ℕ
  analogiesFound : List AnalogyOcc
  analogyScore : ℚ
  feedback : String
deriving DecidableEq, Repr

/-- `detectAnalogies` (analysisEngine.js, Habit 9).  The source builds each
marker regex by escaping apostrophes, which leaves a literal pattern. -/
def detectAnalogies (transcript : Option String) : AnalogyDetection :=
  if strFalsy transcript then
    { analogyCount := 0, analogiesFound := [], analogyScore := 0
      feedback := "No transcript to analyze" }
  else
    let lower := (transcript.getD "").toLower
    let found := ANALOGY_MARKERS.foldl (fun acc m =>
      let c := countLit m.toList lower.toList
      if 0 < c then acc ++ [AnalogyOcc.mk m c] else acc) []
    let totalCount : ℕ := (found.map (·.count)).foldl (· + ·) 0
    let analogyScore : ℚ :=
      if 5 < totalCount then 90
      else if 3 ≤ totalCount then 95
      else if 2 ≤ totalCount then 85
      else if 1 ≤ totalCount then 70
      else 50
    let feedback :=
      if totalCount = 0 then
        "Try using analogies: \x27It\x27s like...\x27 makes ideas memorable."
      else if totalCount ≤ 2 then "Good use of analogies to clarify your message."
      else "Great! Your analogies make complex ideas relatable."
    { analogyCount := totalCount, analogiesFound := found
      analogyScore := analogyScore, feedback := feedback }

/-! ### calculateWPM and calculateClarityScore -/

/-- `calculateWPM` (analysisEngine.js). -/
def calculateWPM (transcript : Option String) (durationMs : ℚ) : ℚ :=
  if strFalsy transcript ∨ durationMs ≤ 0 then 0
  else
    let words := (splitWs (transcript.getD "").trim).filter (fun w => decide (0 < w.length))
    let minutes := durationMs / 60000
    jsRound ((words.length : ℚ) / minutes)

/-- `calculateClarityScore` (analysisEngine.js). -/
def calculateClarityScore (wpm : ℚ) (fillerCount : ℕ) (wordCount : ℕ) : ℚ :=
  let s1 : ℚ := 100
  let s2 : ℚ := if wpm < 100 then s1 - (100 - wpm) * 0.3 else s1
  let s3 : ℚ := if 180 < wpm then s2 - (wpm - 180) * 0.5 else s2
  let fillerRatio : ℚ := if 0 < wordCount then (fillerCount : ℚ) / (wordCount : ℚ) else 0
  clamp100 (jsRound (s3 - fillerRatio * 500))

/-! ### analyzeRateVariability -/

/-- First `start` of a non-empty word list (`p[0].start`). -/
def firstStart (ws : List Word) : ℚ :=
  match ws.head? with
  | some w => w.start
  | none => 0

/-- Last `end` of a non-empty word list (`p[p.length - 1].end`). -/
def lastEnd (ws : List Word) : ℚ :=
  match ws.getLast? with
  | some w => w.«end»
  | none => 0

/-- Phrase grouping loop of `analyzeRateVariability`: a new phrase starts
wherever the gap to the previous word exceeds 0.4 s. -/
def phraseGo : List Word → Word → List Word → List (List Word)
  | cur, _, [] => [cur.reverse]
  | cur, prev, w :: rest =>
    if 0.4 < w.start - prev.«end» then cur.reverse :: phraseGo [w] w rest
    else phraseGo (w :: cur) w rest

/-- The phrases of a word list (empty input gives no phrase). -/
def phrasesOf : List Word → List (List Word)
  | [] => []
  | w :: rest => phraseGo [w] w rest

/-- A `{wpm, duration, wordCount, startTime}` phrase-rate record. -/
structure PhraseRate where
  wpm : ℚ
  duration : ℚ
  wordCount : ℕ
  startTime : ℚ
deriving DecidableEq, Repr

/-- Result object of `analyzeRateVariability`.  Keys absent on the early
returns (`minWpm`, `maxWpm`, `stdDev`) are modelled by `Option`. -/
structure RateVariability where
  segments : List PhraseRate
  avgWpm : ℚ
  minWpm : Option ℚ
  maxWpm : Option ℚ
  stdDev : Option ℚ
  variabilityScore : ℚ
  hasGoodVariation : Bool
  feedback : String
deriving DecidableEq, Repr

def listMinQ : List ℚ → ℚ
  | [] => 0
  | x :: xs => xs.foldl min x

def listMaxQ : List ℚ → ℚ
  | [] => 0
  | x :: xs => xs.foldl max x

/-!
The source compares the coefficient of variation `cv = 100 * sqrt variance / avg`
against constant thresholds.  `sqrt variance` is irrational in general, so the
comparisons are encoded exactly by squaring (valid because both sides are
nonnegative at every call site: `avg ≥ 0`, `variance ≥ 0`, `t ≥ 0`).  When
`avg = 0`, JS computes `cv = NaN` (if `variance = 0`) or `cv = Infinity`
(if `variance > 0`); each encoding below states the value such a comparison
has in JS in that corner.
-/

/-- Exact test `cv ≥ t`.  For `avg = 0`: `NaN ≥ t` is false, `Infinity ≥ t` is true. -/
def cvGE (avg variance t : ℚ) : Bool :=
  if avg = 0 then decide (0 < variance)
  else decide (t ^ 2 * avg ^ 2 ≤ 10000 * variance)

/-- Exact test `cv ≤ t`.  For `avg = 0`: `NaN ≤ t` and `Infinity ≤ t` are both false. -/
def cvLE (avg variance t : ℚ) : Bool :=
  if avg = 0 then false
  else decide (10000 * variance ≤ t ^ 2 * avg ^ 2)

/-- Exact test `cv < t`.  For `avg = 0`: `NaN < t` and `Infinity < t` are both false. -/
def cvLT (avg variance t : ℚ) : Bool :=
  if avg = 0 then false
  else decide (10000 * variance < t ^ 2 * avg ^ 2)

/-- Exact test `cv > t`.  For `avg = 0`: `NaN > t` is false, `Infinity > t` is true. -/
def cvGT (avg variance t : ℚ) : Bool :=
  if avg = 0 then decide (0 < variance)
  else decide (t ^ 2 * avg ^ 2 < 10000 * variance)

/-- `analyzeRateVariability` (analysisEngine.js, Habit 2). -/
def analyzeRateVariability (words : List Word) : RateVariability :=
  if words.length < 10 then
    { segments := [], avgWpm := 0, minWpm := none, maxWpm := none, stdDev := none
      variabilityScore := 50, hasGoodVariation := false
      feedback := "Not enough data for rate analysis" }
  else
    let phrases := phrasesOf words
    let phraseRates := (phrases.filterMap (fun p =>
      if p.length < 2 then none
      else
        let duration := lastEnd p - firstStart p
        if duration < 0.2 then none
        else some (PhraseRate.mk (jsRound ((p.length : ℚ) / duration * 60)) duration
          p.length (firstStart p)))).filter (fun r => decide (r.wpm < 300))
    if phraseRates.length < 3 then
      { segments := [], minWpm := none, maxWpm := none, stdDev := none
        avgWpm := calculateWPM (some (joinSpace (words.map (·.word))))
          ((lastEnd words - firstStart words) * 1000)
        variabilityScore := 70, hasGoodVariation := false
        feedback := "Try speaking in longer phrases to establish flow." }
    else
      let rates := phraseRates.map (·.wpm)
      let avgWpm := jsRound (qsum rates / (rates.length : ℚ))
      let minWpm := listMinQ rates
      let maxWpm := listMaxQ rates
      let variance := qsum (rates.map (fun r => (r - avgWpm) ^ 2)) / (rates.length : ℚ)
      let hasGoodVariation := cvGE avgWpm variance 15 && cvLE avgWpm variance 40
      let variabilityScore : ℚ :=
        if hasGoodVariation then 95
        else if cvLT avgWpm variance 15 then 60
        else 60
      let feedback :=
        if cvLT avgWpm variance 15 then "Your pace is very steady. Try slowing down for emphasis."
        else if cvGT avgWpm variance 40 then "Pace is erratic. Aim for smoother flow between phrases."
        else "Excellent pace variety! You use speed changes to highlight ideas."
      { segments := phraseRates.take 20
        avgWpm := avgWpm
        minWpm := some minWpm
        maxWpm := some maxWpm
        stdDev := some ((sqrtRound variance : ℕ) : ℚ)
        variabilityScore := variabilityScore
        hasGoodVariation := hasGoodVariation
        feedback := feedback }

/-! ### analyzeVolumePatterns -/

/-- Result object of `analyzeVolumePatterns`.  The early return omits the
`history` key, modelled by `none`. -/
structure VolumeAnalysis where
  avgVolume : ℚ
  volumeScore : ℚ
  hasTrailingOff : Bool
  volumeVariation : ℚ
  feedback : String
  history : Option (List ℚ)
deriving DecidableEq, Repr

/-- `analyzeVolumePatterns` (analysisEngine.js, Habit 6).  The `words`
parameter exists in the source signature but is never read.
`volumeVariation = Math.round(100 * sqrt variance / avg)` for `avg > 0` is
computed exactly as `sqrtRound (10000 * variance / avg ^ 2)`. -/
def analyzeVolumePatterns (volumeHistory : List VolumeSample) (words : List Word) : VolumeAnalysis :=
  if volumeHistory.length < 5 then
    { avgVolume := 0, volumeScore := 50, hasTrailingOff := false
      volumeVariation := 0, feedback := "Not enough volume data", history := none }
  else
    let levels := volumeHistory.map (·.level)
    let avgVolume := jsRound (qsum levels / (levels.length : ℚ))
    let variance := qsum (levels.map (fun v => (v - avgVolume) ^ 2)) / (levels.length : ℚ)
    let volumeVariation : ℚ :=
      if 0 < avgVolume then ((sqrtRound (10000 * variance / avgVolume ^ 2) : ℕ) : ℚ) else 0
    let splitIndex := (⌊(levels.length : ℚ) * 0.8⌋).toNat
    let firstPart := levels.take splitIndex
    let lastPart := levels.drop splitIndex
    let avgFirst := qsum firstPart / (firstPart.length : ℚ)
    let avgLast := qsum lastPart / (lastPart.length : ℚ)
    let hasTrailingOff := decide (15 < avgFirst) && decide (avgLast < avgFirst * 0.6)
    let v1 : ℚ :=
      if avgVolume < 15 then 40 + avgVolume
      else if 25 ≤ avgVolume ∧ avgVolume ≤ 60 then 90
      else if 80 < avgVolume then 75
      else 70
    let v2 : ℚ := if hasTrailingOff then v1 - 15 else v1
    let v3 : ℚ := if 50 < volumeVariation then v2 - 10 else v2
    let volumeScore := clamp100 (jsRound v3)
    let feedback :=
      if avgVolume < 15 then "Speak up! Project your voice with more energy."
      else if hasTrailingOff then "Maintain volume through sentence ends. Don\x27t trail off."
      else if 50 < volumeVariation then "Keep volume more consistent for clarity."
      else "Great projection! Your energy comes through well."
    { avgVolume := avgVolume, volumeScore := volumeScore
      hasTrailingOff := hasTrailingOff, volumeVariation := volumeVariation
      feedback := feedback, history := some levels }


/-! ### detectRepetitions (stutteringAnalyzer.js) -/

/-- A `{word, count, timestamp, type}` repetition entry. -/
structure RepEntry where
  word : String
  count : ℕ
  timestamp : ℚ
  type : String
deriving DecidableEq, Repr

/-- Result object of `detectRepetitions`. -/
structure RepetitionsResult where
  repetitions : List RepEntry
  count : ℕ
deriving DecidableEq, Repr

/-- `words[i].word.toLowerCase().replace(/[.,!?;:]/g, h)`. -/
def cleanRep (s : String) : String := stripPunct s.toLower

/-- Fuel-driven worker for the exact-repetition grouping loop (`the the the`):
each group consumes at least one word, so fuel = list length suffices. -/
def repGroupsF : ℕ → List Word → List RepEntry
  | 0, _ => []
  | _, [] => []
  | Nat.succ fuel, w :: rest =>
    let cw := cleanRep w.word
    let grp := rest.takeWhile (fun x => cleanRep x.word == cw)
    if 0 < grp.length then
      RepEntry.mk cw (grp.length + 1) w.start "word" :: repGroupsF fuel (rest.drop grp.length)
    else repGroupsF fuel rest

def repGroups (ws : List Word) : List RepEntry := repGroupsF ws.length ws

/-- JS `\w` word character. -/
def isWordChar (c : Char) : Bool := c.isAlpha || c.isDigit || c == '_'

/-- Attempt to match the stutter pattern `([a-z])-\x5c1+-[a-z]+` (flags `gi`)
at the head of the string: a letter, a hyphen, a maximal nonempty run of the
same letter (case-insensitive, as the backreference is under the `i` flag),
a hyphen, and a maximal nonempty run of letters.  Greedy matching is exact
here: a shorter backreference run would still be followed by the same letter
and never by the required hyphen.  Returns the matched characters and the
rest of the string. -/
def tryStutter : List Char → Option (List Char × List Char)
  | c :: '-' :: rest =>
    if c.isAlpha then
      let run := rest.takeWhile (fun d => d.toLower == c.toLower)
      if run.length = 0 then none
      else
        match rest.drop run.length with
        | '-' :: rest2 =>
          let letters := rest2.takeWhile (·.isAlpha)
          if letters.length = 0 then none
          else some (c :: '-' :: (run ++ '-' :: letters), rest2.drop letters.length)
        | _ => none
    else none
  | _ => none

/-- Fuel-driven global scan for the stutter pattern, tracking the word
boundary `\x5cb` state (the pattern can only start where the previous
character is not a word character). -/
def scanStutterF : ℕ → Bool → List Char → List (List Char)
  | 0, _, _ => []
  | _, _, [] => []
  | Nat.succ fuel, boundary, c :: rest =>
    match (if boundary then tryStutter (c :: rest) else none) with
    | some (m, remaining) => m :: scanStutterF fuel false remaining
    | none => scanStutterF fuel (!(isWordChar c)) rest

/-- `detectRepetitions` (stutteringAnalyzer.js). -/
def detectRepetitions (words : List Word) : RepetitionsResult :=
  if words.length < 2 then { repetitions := [], count := 0 }
  else
    let reps := repGroups words
    let transcript := joinSpace (words.map (·.word))
    let stutters := scanStutterF transcript.toList.length true transcript.toList
    let allReps := reps ++ stutters.map (fun m =>
      RepEntry.mk (String.mk m) ((m.filter (fun c => c == '-')).length + 1) 0 "syllable")
    { repetitions := allReps, count := allReps.length }

/-! ### analyzePaceVariation (stutteringAnalyzer.js) -/

/-- A `{startTime, wpm, wordCount}` pace segment. -/
structure PaceSegment where
  startTime : ℚ
  wpm : ℚ
  wordCount : ℕ
deriving DecidableEq, Repr

/-- Result object of `analyzePaceVariation`.  The early return omits the
`averageWpm` key, modelled by `none`. -/
structure PaceVariation where
  segments : List PaceSegment
  variation : ℚ
  consistency : String
  averageWpm : Option ℚ
deriving DecidableEq, Repr

/-- `analyzePaceVariation` (stutteringAnalyzer.js), fixed 10 s windows.
If every window rate is zero, JS computes `NaN` for the mean, variation and
`averageWpm`; every comparison below is then false, which coincides with the
value 0 used by this model (only the stored `averageWpm` differs: `NaN`
there, `0` here; no consumer reads it in that corner other than a `< 100`
comparison, which is false for both). -/
def analyzePaceVariation (words : List Word) (segmentDuration : ℚ := 10) : PaceVariation :=
  if words.length < 5 then
    { segments := [], variation := 0, consistency := "unknown", averageWpm := none }
  else
    let totalDuration := lastEnd words - firstStart words
    let numSegments := max 1 ⌊totalDuration / segmentDuration⌋
    let segments := (List.range numSegments.toNat).map (fun seg =>
      let segStart := firstStart words + (seg : ℚ) * segmentDuration
      let segEnd := segStart + segmentDuration
      let segmentWords := words.filter (fun w =>
        decide (segStart ≤ w.start) && decide (w.start < segEnd))
      let wordCount := segmentWords.length
      let actualDuration : ℚ :=
        if 0 < segmentWords.length then lastEnd segmentWords - firstStart segmentWords
        else segmentDuration
      let wpm : ℚ :=
        if 0 < actualDuration then jsRound ((wordCount : ℚ) / actualDuration * 60) else 0
      PaceSegment.mk (jsRound (segStart * 10) / 10) wpm wordCount)
    if 1 < segments.length then
      let wpmValues := (segments.map (·.wpm)).filter (fun w => decide (0 < w))
      let avgWpm : ℚ := qsum wpmValues / (wpmValues.length : ℚ)
      let variance := qsum (wpmValues.map (fun w => (w - avgWpm) ^ 2)) / (wpmValues.length : ℚ)
      let variation : ℚ :=
        if 0 < avgWpm then ((sqrtRound (10000 * variance / avgWpm ^ 2) : ℕ) : ℚ) else 0
      let consistency :=
        if 40 < variation then "highly variable"
        else if 25 < variation then "somewhat variable"
        else "consistent"
      { segments := segments, variation := variation, consistency := consistency
        averageWpm := some (jsRound avgWpm) }
    else
      { segments := segments, variation := 0, consistency := "unknown"
        averageWpm := some (match segments.head? with
          | some s => s.wpm
          | none => 0) }

/-! ### generateStutteringReport -/

/-- A recommendation: either a `{icon, text, priority}` card or a plain
string (the base recommendations are plain strings in the source). -/
inductive Recommendation where
  | card (icon : String) (text : String) (priority : String)
  | plain (text : String)
deriving DecidableEq, Repr

/-- `generateStutteringRecommendations` (stutteringAnalyzer.js). -/
def generateStutteringRecommendations (blocks : BlocksResult)
    (repetitions : RepetitionsResult) (paceVariation : PaceVariation) :
    List Recommendation :=
  let l1 : List Recommendation :=
    if blocks.severity == "high" then
      [Recommendation.card "🧘" "Practice gentle onset technique - start words with a soft, easy voice." "high",
       Recommendation.card "💨" "Focus on exhaling gently before speaking to reduce tension." "high"]
    else if blocks.severity == "moderate" then
      [Recommendation.card "⏸️" "Use intentional pauses at natural points instead of fighting through blocks." "medium"]
    else if 0 < blocks.count then
      [Recommendation.card "✨" "Good job managing blocks! Continue practicing relaxed breathing." "low"]
    else []
  let l2 : List Recommendation :=
    if 3 < repetitions.count then
      [Recommendation.card "🎯" "Try slowing down slightly and stretching the first sound of words." "medium"]
    else if 0 < repetitions.count then
      [Recommendation.card "🌊" "Practice smooth, flowing speech - let words connect naturally." "low"]
    else []
  let l3 : List Recommendation :=
    if paceVariation.consistency == "highly variable" then
      [Recommendation.card "🎵" "Practice with a metronome or rhythmic pattern to stabilize pace." "medium"]
    else if (match paceVariation.averageWpm with
      | some a => decide (a < 100)
      | none => false) then
      [Recommendation.card "⚡" "Your pace is deliberate - this is good for control! Gradually increase as comfort grows." "low"]
    else []
  let recs := l1 ++ l2 ++ l3
  let withFallback :=
    if recs.length = 0 then
      [Recommendation.card "🎉" "Excellent fluency! Keep up the great practice." "low"]
    else recs
  withFallback.take 4

/-- Result object of `generateStutteringReport`.  `fluencyScore` is
`Option ℚ` because reading the missing `severeCount` key of the short-input
`detectBlocks` result makes the JS computation produce `NaN` (`none`). -/
structure StutteringReport where
  fluencyScore : Option ℚ
  overallSeverity : String
  blocks : BlocksResult
  repetitions : RepetitionsResult
  paceVariation : PaceVariation
  recommendations : List Recommendation
  wordCount : ℕ
deriving DecidableEq, Repr

/-- `generateStutteringReport` (stutteringAnalyzer.js). -/
def generateStutteringReport (words : List Word) : StutteringReport :=
  let blocks := detectBlocks words
  let repetitions := detectRepetitions words
  let paceVariation := analyzePaceVariation words
  let fluencyScore : Option ℚ :=
    match blocks.severeCount with
    | none => none
    | some sc =>
      let f1 : ℚ := 100 - (blocks.count : ℚ) * 5 - (sc : ℚ) * 10 - (repetitions.count : ℚ) * 8
      let f2 : ℚ :=
        if 40 < paceVariation.variation then f1 - 15
        else if 25 < paceVariation.variation then f1 - 8
        else f1
      some (clamp100 f2)
  let overallSeverity :=
    match fluencyScore with
    | none => "minimal"
    | some v =>
      if v < 50 then "significant"
      else if v < 70 then "moderate"
      else if v < 85 then "mild"
      else "minimal"
  { fluencyScore := fluencyScore
    overallSeverity := overallSeverity
    blocks := blocks
    repetitions := repetitions
    paceVariation := paceVariation
    recommendations := generateStutteringRecommendations blocks repetitions paceVariation
    wordCount := words.length }


/-! ### Aggregator (generatePerformanceReport, analysisEngine.js) -/

/-- The argument object of `generatePerformanceReport` after the
destructuring defaults (`eyeContactPercentage = 0`, `postureScore = 0`,
`words = []`, `stutteringReport = null`, `volumeHistory = []`) have been
applied. -/
structure AnalysisInput where
  transcript : Option String
  durationMs : ℚ
  eyeContactPercentage : ℚ
  postureScore : ℚ
  words : List Word
  stutteringReport : Option StutteringReport
  volumeHistory : List VolumeSample
deriving DecidableEq, Repr

/-- The eight-field object passed to `generateHabitsRecommendations` by the
aggregator (its parameter list destructures only four of the fields). -/
structure HabitsRecsInput where
  strategicPauses : PauseAnalysis
  hedgingAnalysis : HedgingAnalysis
  rateVariability : RateVariability
  fillerAnalysis : FillerAnalysis
  volumeAnalysis : VolumeAnalysis
  thoughtCompletion : ThoughtCompletion
  frameworkDetection : FrameworkDetection
  analogyDetection : AnalogyDetection
deriving DecidableEq, Repr

/-- `generateHabitsRecommendations` (analysisEngine.js).  The source
destructures only `strategicPauses`, `hedgingAnalysis`, `rateVariability`
and `fillerAnalysis`; the other four fields of the passed object are never
read.  `issue` reproduces the JS expression
`(occurrences[0]?.word) || (hedgingPhrases[0]?.phrase)` inside a template
literal: an empty string is falsy, and a missing value prints `undefined`. -/
def generateHabitsRecommendations (args : HabitsRecsInput) : List Recommendation :=
  let l1 : List Recommendation :=
    if args.strategicPauses.pauseScore < 60 then
      [Recommendation.card "⏸️" args.strategicPauses.feedback "high"]
    else []
  let l2 : List Recommendation :=
    if 5 < args.fillerAnalysis.count ∨ 3 < args.hedgingAnalysis.hedgingCount then
      let topFiller : Option String := args.fillerAnalysis.occurrences.head?.map (·.word)
      let topHedge : Option String := args.hedgingAnalysis.hedgingPhrases.head?.map (·.phrase)
      let issue : String :=
        match (match topFiller with
          | some w => if w == "" then topHedge else some w
          | none => topHedge) with
        | some s => s
        | none => "undefined"
      [Recommendation.card "💬"
        ("Replace \"" ++ issue ++ "\" with a pause or direct statement.") "high"]
    else if args.hedgingAnalysis.declarativeScore < 70 then
      [Recommendation.card "💬" args.hedgingAnalysis.feedback "medium"]
    else []
  let l3 : List Recommendation :=
    if args.rateVariability.variabilityScore < 60 then
      [Recommendation.card "🎚️" args.rateVariability.feedback "medium"]
    else []
  l1 ++ l2 ++ l3

/-- `generateRecommendations` (analysisEngine.js): the base
wpm/filler/eye-contact/posture recommendations, with a fallback item when
nothing is flagged. -/
def generateRecommendations (wpm : ℚ) (fillerCount : ℕ)
    (eyeContactPercentage : ℚ) (postureScore : ℚ) : List Recommendation :=
  let l1 : List Recommendation :=
    if wpm < 100 then
      [Recommendation.plain "Try to increase your speaking pace slightly for better engagement."]
    else if 180 < wpm then
      [Recommendation.plain "Consider slowing down to allow your audience to absorb information."]
    else []
  let l2 : List Recommendation :=
    if 5 < fillerCount then
      [Recommendation.plain "Practice reducing filler words by pausing briefly instead of using \"um\" or \"uh\"."]
    else []
  let l3 : List Recommendation :=
    if eyeContactPercentage < 70 then
      [Recommendation.plain "Focus on maintaining eye contact with the camera to connect with your audience."]
    else []
  let l4 : List Recommendation :=
    if postureScore < 70 then
      [Recommendation.plain "Sit up straight and keep your shoulders back for a more confident presence."]
    else []
  let recs := l1 ++ l2 ++ l3 ++ l4
  if recs.length = 0 then
    [Recommendation.plain "Great job! Keep practicing to maintain your excellent performance."]
  else recs

/-- `summary` section of the report.  `fluencyScore` and `overallScore` are
`Option ℚ` because a stuttering report carrying `NaN` (see
`StutteringReport.fluencyScore`) propagates it into both. -/
structure ReportSummary where
  overallScore : Option ℚ
  duration : ℚ
  wordCount : ℕ
  wpm : ℚ
  fluencyScore : Option ℚ
  habitsScore : ℚ
  clarityScore : ℚ
deriving DecidableEq, Repr

/-- `speech` section of the report. -/
structure SpeechSection where
  wpm : ℚ
  clarityScore : ℚ
  fillerWords : FillerAnalysis
  pauses : PauseAnalysis
deriving DecidableEq, Repr

/-- `habits.delivery` section. -/
structure DeliveryHabits where
  pauses : PauseAnalysis
  rate : RateVariability
  declarative : HedgingAnalysis
deriving DecidableEq, Repr

/-- `habits.vocal` section. -/
structure VocalHabits where
  volume : VolumeAnalysis
deriving DecidableEq, Repr

/-- `habits.cognitive` section. -/
structure CognitiveHabits where
  thoughtCompletion : ThoughtCompletion
  frameworks : FrameworkDetection
  analogies : AnalogyDetection
deriving DecidableEq, Repr

/-- `habits` section of the report. -/
structure HabitsSection where
  delivery : DeliveryHabits
  vocal : VocalHabits
  cognitive : CognitiveHabits
deriving DecidableEq, Repr

/-- `visual` section of the report. -/
structure VisualSection where
  eyeContactPercentage : ℚ
  postureScore : ℚ
deriving DecidableEq, Repr

/-- The complete `PerformanceReport` object. -/
structure PerformanceReport where
  summary : ReportSummary
  speech : SpeechSection
  habits : HabitsSection
  visual : VisualSection
  transcript : String
  stuttering : Option StutteringReport
  recommendations : List Recommendation
deriving DecidableEq, Repr

/-- `generatePerformanceReport` (analysisEngine.js). -/
def generatePerformanceReport (data : AnalysisInput) : PerformanceReport :=
  let wpm := calculateWPM data.transcript data.durationMs
  let fillerAnalysis := detectFillerWords data.transcript
  let pauseAnalysis := analyzeStrategicPauses data.words
  let wordCount : ℕ :=
    match data.transcript with
    | none => 0
    | some t => if t == "" then 0 else (splitWs t.trim).length
  let hedgingAnalysis := detectHedgingLanguage data.transcript
  let rateVariability := analyzeRateVariability data.words
  let volumeAnalysis := analyzeVolumePatterns data.volumeHistory data.words
  let thoughtCompletion := analyzeThoughtCompletion data.transcript
  let frameworkDetection := detectFrameworks data.transcript
  let analogyDetection := detectAnalogies data.transcript
  let clarityScore := calculateClarityScore wpm fillerAnalysis.count wordCount
  let fluencyScore : Option ℚ :=
    match data.stutteringReport with
    | some r => r.fluencyScore
    | none => some 100
  let habitsScore : ℚ := jsRound (
    pauseAnalysis.pauseScore * 0.15 +
    rateVariability.variabilityScore * 0.10 +
    hedgingAnalysis.declarativeScore * 0.15 +
    volumeAnalysis.volumeScore * 0.15 +
    thoughtCompletion.completionScore * 0.15 +
    frameworkDetection.frameworkScore * 0.15 +
    analogyDetection.analogyScore * 0.15)
  let overallScore : Option ℚ := fluencyScore.map (fun f => jsRound (
    clarityScore * 0.15 +
    f * 0.10 +
    habitsScore * 0.35 +
    min 100 (wpm / 1.5) * 0.10 +
    data.eyeContactPercentage * 0.15 +
    data.postureScore * 0.15))
  let habitsRecommendations := generateHabitsRecommendations
    { strategicPauses := pauseAnalysis
      hedgingAnalysis := hedgingAnalysis
      rateVariability := rateVariability
      fillerAnalysis := fillerAnalysis
      volumeAnalysis := volumeAnalysis
      thoughtCompletion := thoughtCompletion
      frameworkDetection := frameworkDetection
      analogyDetection := analogyDetection }
  let baseRecommendations :=
    generateRecommendations wpm fillerAnalysis.count data.eyeContactPercentage data.postureScore
  let stutteringRecommendations : List Recommendation :=
    match data.stutteringReport with
    | some r => r.recommendations
    | none => []
  { summary :=
      { overallScore := overallScore
        duration := data.durationMs
        wordCount := wordCount
        wpm := wpm
        fluencyScore := fluencyScore
        habitsScore := habitsScore
        clarityScore := clarityScore }
    speech :=
      { wpm := wpm
        clarityScore := clarityScore
        fillerWords := fillerAnalysis
        pauses := pauseAnalysis }
    habits :=
      { delivery := { pauses := pauseAnalysis, rate := rateVariability, declarative := hedgingAnalysis }
        vocal := { volume := volumeAnalysis }
        cognitive :=
          { thoughtCompletion := thoughtCompletion
            frameworks := frameworkDetection
            analogies := analogyDetection } }
    visual :=
      { eyeContactPercentage := data.eyeContactPercentage
        postureScore := data.postureScore }
    transcript := data.transcript.getD ""
    stuttering := data.stutteringReport
    recommendations :=
      (habitsRecommendations ++ stutteringRecommendations ++ baseRecommendations).take 8 }


/-! ### Concrete inputs used by the theorems below -/

/-- The exact two-word input named by claim C1. -/
def c1Words : List Word := [⟨"", 0, 0.2⟩, ⟨"", 1.5, 1.7⟩]

/-- The 1.3 s gap of claim C1 embedded in a word list long enough (5 words)
to pass the data-sufficiency guard of the analyzer; the padding words touch
(gap 0), so the 1.3 s gap is the only recordable pause. -/
def c1WordsPadded : List Word :=
  [⟨"", 0, 0.2⟩, ⟨"", 1.5, 1.7⟩, ⟨"", 1.7, 1.9⟩, ⟨"", 1.9, 2.1⟩, ⟨"", 2.1, 2.3⟩]



/-- A fully empty analysis input (no transcript, no words, no volume data). -/
def emptyInput : AnalysisInput :=
  { transcript := none, durationMs := 0, eyeContactPercentage := 0
    postureScore := 0, words := [], stutteringReport := none, volumeHistory := [] }

/-- A one-word recording: chronological, `start ≤ end`, all stated
preconditions of claim C2 hold.  The app builds the stuttering report with
`generateStutteringReport(words)` whenever `words.length > 0` (App.jsx). -/
def c2Words : List Word := [⟨"hi", 0, 1⟩]

/-- The full aggregator input for the one-word recording. -/
def c2FailingInput : AnalysisInput :=
  { transcript := some "hi", durationMs := 1000, eyeContactPercentage := 50
    postureScore := 50, words := c2Words
    stutteringReport := some (generateStutteringReport c2Words), volumeHistory := [] }

/-- A habits-recommendation argument object built from degenerate analyzer
results. -/
def c9A : HabitsRecsInput :=
  { strategicPauses := analyzeStrategicPauses []
    hedgingAnalysis := detectHedgingLanguage none
    rateVariability := analyzeRateVariability []
    fillerAnalysis := detectFillerWords none
    volumeAnalysis := analyzeVolumePatterns [] []
    thoughtCompletion := analyzeThoughtCompletion none
    frameworkDetection := detectFrameworks none
    analogyDetection := detectAnalogies none }

/-- The same argument object with different volume, thought-completion,
framework and analogy results (the fields the generator never reads). -/
def c9B : HabitsRecsInput :=
  { c9A with
    volumeAnalysis := analyzeVolumePatterns
      [⟨0, 10⟩, ⟨1, 20⟩, ⟨2, 30⟩, ⟨3, 40⟩, ⟨4, 50⟩] []
    thoughtCompletion := analyzeThoughtCompletion
      (some "The situation is that we ship today. The point is quality. This means we test.")
    frameworkDetection := detectFrameworks
      (some "The situation is that we ship today. The point is quality. This means we test.")
    analogyDetection := detectAnalogies (some "Think of it as a garden. Imagine the growth.") }

/-- A score lying in the closed interval `[0, 100]`. -/
def InRange (q : ℚ) : Prop := 0 ≤ q ∧ q ≤ 100

/-! # Theorems settling the claims -/

theorem blocksOf_eq_filterMap (w : Word) (rest : List Word) :
    blocksOf w rest = (adjPairs (w :: rest)).filterMap blockOfPair := by
  induction rest generalizing w with
  | nil => rfl
  | cons b r ih =>
    by_cases h : BLOCK_THRESHOLD ≤ b.start - w.«end» <;>
      simp [blocksOf, adjPairs, List.filterMap_cons, blockOfPair, h, ih]


/-! ### Claim C1 (corrected) -/

/-- C1 counterexample: on the two-word input `[{start:0,end:0.2},{start:1.5,end:1.7}]`
the analyzer takes its `< 5` words early return, so `strategicPauses` is `0`,
not `1` as the claim states, and no pause of any type is recorded. -/
theorem c1_two_words_hit_early_return :
    (analyzeStrategicPauses c1Words).strategicPauses ≠ 1 ∧
    (analyzeStrategicPauses c1Words).strategicPauses = 0 ∧
    (analyzeStrategicPauses c1Words).totalPauses = 0 ∧
    (analyzeStrategicPauses c1Words).pauseScore = 50 ∧
    (analyzeStrategicPauses c1Words).feedback = "Not enough data for pause analysis" := by
  norm_num [analyzeStrategicPauses, c1Words]

/-- C1 amended: `analyzeStrategicPauses` requires at least 5 words; on a
5-word input containing the two words of the claim (inter-word gap 1.3 s, all
other gaps 0) the gap is classified `strategic`: the result has
`strategicPauses = 1` and the single recorded pause has type `strategic`. -/
theorem c1_gap_1_3s_is_strategic :
    (analyzeStrategicPauses c1WordsPadded).strategicPauses = 1 ∧
    (analyzeStrategicPauses c1WordsPadded).totalPauses = 1 ∧
    (analyzeStrategicPauses c1WordsPadded).pauseDistribution.map (·.type) = ["strategic"] := by
  norm_num [analyzeStrategicPauses, c1WordsPadded, pausesOf, PAUSE_SHORT, PAUSE_STRATEGIC,
    PAUSE_TOO_LONG, round2, jsRound, qsum, sortDescBy, insDescBy, clamp100, List.filter]


/-! ### Claim C6 -/

/-- C6: for at least two words, `detectBlocks` records a block exactly for
each adjacent pair whose gap is at least 0.5 s, with `isSevere` exactly when
the gap is at least 1.0 s; and on a concrete pair with a gap of exactly
1.0 s the single recorded block has `isSevere = true`. -/
theorem c6_detectBlocks_gap_threshold :
    (∀ ws : List Word, 2 ≤ ws.length →
      (detectBlocks ws).blocks = (adjPairs ws).filterMap blockOfPair ∧
      (∀ p ∈ adjPairs ws, ∀ b : Block, blockOfPair p = some b →
        (b.isSevere = true ↔ SEVERE_BLOCK_THRESHOLD ≤ p.2.start - p.1.«end»))) ∧
    (detectBlocks [⟨"a", 0, 0.2⟩, ⟨"b", 1.2, 1.4⟩]).blocks =
      [⟨"a", "b", 1, 0.2, true⟩] := by
  constructor
  · intro ws hlen
    constructor
    · match ws, hlen with
      | a :: b :: rest, _ =>
        have h2 : ¬ (a :: b :: rest).length < 2 := by simp
        simp only [detectBlocks, h2, if_false]
        exact blocksOf_eq_filterMap a (b :: rest)
    · intro p _ b hb
      unfold blockOfPair at hb
      by_cases h : BLOCK_THRESHOLD ≤ p.2.start - p.1.«end»
      · simp only [h, if_true] at hb
        cases hb
        simp [decide_eq_true_iff]
      · simp [h] at hb
  · norm_num [detectBlocks, blocksOf, blockOfPair, BLOCK_THRESHOLD,
      SEVERE_BLOCK_THRESHOLD, round2, jsRound]

/-- Closed instantiation of `c6_detectBlocks_gap_threshold` at a concrete
two-word input, discharging its length hypothesis. -/
theorem c6_detectBlocks_gap_threshold_witness :
    2 ≤ ([⟨"hello", 0, 0.5⟩, ⟨"world", 1.6, 2⟩] : List Word).length ∧
    (detectBlocks [⟨"hello", 0, 0.5⟩, ⟨"world", 1.6, 2⟩]).blocks =
      (adjPairs [⟨"hello", 0, 0.5⟩, ⟨"world", 1.6, 2⟩]).filterMap blockOfPair :=
  ⟨by decide,
   (c6_detectBlocks_gap_threshold.1 [⟨"hello", 0, 0.5⟩, ⟨"world", 1.6, 2⟩] (by decide)).1⟩

/-! ### Claim C4 -/

/-- C4: for at least five words the pause score is 70, plus 15 when the
strategic-pause ratio exceeds 0.05, additionally minus 5 when it exceeds
0.15, minus 10 per too-long pause; 30 instead when no pause at all was
recorded; and finally rounded and clamped to [0, 100]. -/
theorem c4_pauseScore_formula (ws : List Word) (h : 5 ≤ ws.length) :
    (analyzeStrategicPauses ws).pauseScore =
      clamp100 (jsRound (
        if (analyzeStrategicPauses ws).totalPauses = 0 then 30 else
          70 + (if 0.05 < ((analyzeStrategicPauses ws).strategicPauses : ℚ) / ws.length then (15 : ℚ) else 0)
             - (if 0.15 < ((analyzeStrategicPauses ws).strategicPauses : ℚ) / ws.length then (5 : ℚ) else 0)
             - ((analyzeStrategicPauses ws).tooLongPauses : ℚ) * 10)) := by
  have hlt : ¬ ws.length < 5 := by omega
  have h0 : ¬ ws.length = 0 := by omega
  simp only [analyzeStrategicPauses, hlt, if_false, h0]

/-- Closed instantiation of `c4_pauseScore_formula` at a concrete 5-word
input, discharging its length hypothesis. -/
theorem c4_pauseScore_formula_witness :
    5 ≤ (c1WordsPadded).length ∧
    (analyzeStrategicPauses c1WordsPadded).pauseScore =
      clamp100 (jsRound (
        if (analyzeStrategicPauses c1WordsPadded).totalPauses = 0 then 30 else
          70 + (if 0.05 < ((analyzeStrategicPauses c1WordsPadded).strategicPauses : ℚ) / c1WordsPadded.length then (15 : ℚ) else 0)
             - (if 0.15 < ((analyzeStrategicPauses c1WordsPadded).strategicPauses : ℚ) / c1WordsPadded.length then (5 : ℚ) else 0)
             - ((analyzeStrategicPauses c1WordsPadded).tooLongPauses : ℚ) * 10)) :=
  ⟨by decide, c4_pauseScore_formula c1WordsPadded (by decide)⟩




/-! ### Claim C2 (code bug) -/

/-- C2 (code bug): on the valid one-word recording, the early return of
`detectBlocks` omits `severeCount`, `generateStutteringReport` subtracts
`undefined * 10` and its `fluencyScore` becomes NaN (`none`); feeding that
report to the aggregator makes `summary.fluencyScore` and
`summary.overallScore` NaN as well — not numbers in `[0, 100]`. -/
theorem c2_nan_fluency_escapes_range :
    (generateStutteringReport c2Words).fluencyScore = none ∧
    (generatePerformanceReport c2FailingInput).summary.fluencyScore = none ∧
    (generatePerformanceReport c2FailingInput).summary.overallScore = none :=
  ⟨rfl, rfl, rfl⟩

/-! ### Claim C3 -/

/-- C3: `summary.fluencyScore` is taken from the supplied stuttering report
(defaulting to 100 when absent) and `summary.overallScore` is the rounded
weighted sum of clarity (15%), fluency (10%), habits (35%),
`min(100, wpm / 1.5)` (10%), eye contact (15%) and posture (15%). -/
theorem c3_overallScore_weighted_sum (data : AnalysisInput) :
    (generatePerformanceReport data).summary.fluencyScore =
      (match data.stutteringReport with
        | some r => r.fluencyScore
        | none => some 100) ∧
    (generatePerformanceReport data).summary.overallScore =
      (generatePerformanceReport data).summary.fluencyScore.map (fun f => jsRound (
        (generatePerformanceReport data).summary.clarityScore * 0.15 +
        f * 0.10 +
        (generatePerformanceReport data).summary.habitsScore * 0.35 +
        min 100 ((generatePerformanceReport data).summary.wpm / 1.5) * 0.10 +
        data.eyeContactPercentage * 0.15 +
        data.postureScore * 0.15)) :=
  ⟨rfl, rfl⟩

/-! ### Claim C5 -/

/-- C5: the aggregator is deterministic — structurally identical inputs
produce structurally identical reports (in this embedding the aggregator is
a pure function of its input record: no hidden state, no randomness, no
dependence on call order). -/
theorem c5_report_deterministic (d1 d2 : AnalysisInput) (h : d1 = d2) :
    generatePerformanceReport d1 = generatePerformanceReport d2 := by
  rw [h]

/-- Closed instantiation of `c5_report_deterministic` at a concrete input. -/
theorem c5_report_deterministic_witness :
    emptyInput = emptyInput ∧
    generatePerformanceReport emptyInput = generatePerformanceReport emptyInput :=
  ⟨rfl, c5_report_deterministic emptyInput emptyInput rfl⟩

/-! ### Claim C7 -/

theorem fallback_ne_nil {α : Type} (l : List α) (fb : α) :
    (if l.length = 0 then [fb] else l) ≠ [] := by
  split
  · simp
  · next h =>
    intro hc
    rw [hc] at h
    simp at h

theorem generateRecommendations_ne_nil (wpm : ℚ) (fc : ℕ) (e p : ℚ) :
    generateRecommendations wpm fc e p ≠ [] := by
  unfold generateRecommendations
  exact fallback_ne_nil _ _

theorem take8_length_le {α : Type} (l : List α) : (l.take 8).length ≤ 8 := by
  rw [List.length_take]
  omega

theorem take8_ne_nil {α : Type} (l : List α) (h : l ≠ []) : l.take 8 ≠ [] := by
  cases l with
  | nil => exact absurd rfl h
  | cons a t => simp [List.take]

/-- C7: the recommendations of the report are the habit-driven items, then
the stuttering-report items, then the base items, truncated to 8 with no
deduplication; the list always has at most 8 entries and is never empty
(the base generator emits a fallback item when nothing is flagged). -/
theorem c7_recommendations_concat_bounded (data : AnalysisInput) :
    (generatePerformanceReport data).recommendations =
      (generateHabitsRecommendations
        { strategicPauses := analyzeStrategicPauses data.words
          hedgingAnalysis := detectHedgingLanguage data.transcript
          rateVariability := analyzeRateVariability data.words
          fillerAnalysis := detectFillerWords data.transcript
          volumeAnalysis := analyzeVolumePatterns data.volumeHistory data.words
          thoughtCompletion := analyzeThoughtCompletion data.transcript
          frameworkDetection := detectFrameworks data.transcript
          analogyDetection := detectAnalogies data.transcript } ++
       (match data.stutteringReport with
        | some r => r.recommendations
        | none => []) ++
       generateRecommendations (calculateWPM data.transcript data.durationMs)
         (detectFillerWords data.transcript).count
         data.eyeContactPercentage data.postureScore).take 8 ∧
    (generatePerformanceReport data).recommendations.length ≤ 8 ∧
    (generatePerformanceReport data).recommendations ≠ [] := by
  refine ⟨rfl, take8_length_le _, take8_ne_nil _ ?_⟩
  intro hc
  simp only [List.append_eq_nil] at hc
  exact generateRecommendations_ne_nil _ _ _ _ hc.2


/-! ### Claim C8 (corrected) -/

/-- C8 counterexample: on an insufficient word list the stuttering report is
still returned without an exception, but its fluency score is not a neutral
default (nor any number): it is NaN, because the early return of
`detectBlocks` omits the `severeCount` field that the score computation
reads. -/
theorem c8_short_input_fluency_is_nan :
    (generateStutteringReport [⟨"uh", 0, 0.5⟩]).fluencyScore = none ∧
    (generateStutteringReport [⟨"uh", 0, 0.5⟩]).fluencyScore ≠ some 50 ∧
    (generateStutteringReport [⟨"uh", 0, 0.5⟩]).fluencyScore ≠ some 70 ∧
    (generateStutteringReport [⟨"uh", 0, 0.5⟩]).fluencyScore ≠ some 100 :=
  ⟨rfl, fun hc => Option.noConfusion hc, fun hc => Option.noConfusion hc,
   fun hc => Option.noConfusion hc⟩

/-- C8 amended: every analyzer totally returns its documented
default-with-feedback result on missing or insufficient data — except that
the fluency score inside the short-input stuttering report is NaN (`none`)
rather than a neutral number, while the rest of that report (and a fallback
recommendation) is still produced.  The final conjunct shows the aggregator
itself degrading gracefully on a fully empty input. -/
theorem c8_analyzers_degrade_gracefully :
    (∀ t, strFalsy t = true →
      detectFillerWords t = { count := 0, occurrences := [], positions := [] }) ∧
    (∀ ws : List Word, ws.length < 5 →
      analyzeStrategicPauses ws =
        { totalPauses := 0, strategicPauses := 0, shortPauses := 0
          tooLongPauses := 0, avgPauseDuration := 0, pauseScore := 50
          pauseDistribution := [], feedback := "Not enough data for pause analysis" }) ∧
    (∀ t, strFalsy t = true →
      detectHedgingLanguage t =
        { hedgingCount := 0, hedgingPhrases := [], declarativeScore := 100
          feedback := "No transcript to analyze" }) ∧
    (∀ ws : List Word, ws.length < 10 →
      analyzeRateVariability ws =
        { segments := [], avgWpm := 0, minWpm := none, maxWpm := none, stdDev := none
          variabilityScore := 50, hasGoodVariation := false
          feedback := "Not enough data for rate analysis" }) ∧
    (∀ vh : List VolumeSample, ∀ ws : List Word, vh.length < 5 →
      analyzeVolumePatterns vh ws =
        { avgVolume := 0, volumeScore := 50, hasTrailingOff := false
          volumeVariation := 0, feedback := "Not enough volume data", history := none }) ∧
    (∀ t, strFalsy t = true ∨ (t.getD "").length < 20 →
      analyzeThoughtCompletion t =
        { avgSentenceLength := 0, longSentences := 0, veryLongSentences := none
          sentenceCount := none, completionScore := 50
          feedback := "Not enough text to analyze" }) ∧
    (∀ t, strFalsy t = true →
      detectFrameworks t =
        { hasContext := false, hasCore := false, hasConnect := false
          frameworkScore := 0, feedback := "No transcript to analyze" }) ∧
    (∀ t, strFalsy t = true →
      detectAnalogies t =
        { analogyCount := 0, analogiesFound := [], analogyScore := 0
          feedback := "No transcript to analyze" }) ∧
    (∀ ws : List Word, ws.length < 2 →
      generateStutteringReport ws =
        { fluencyScore := none, overallSeverity := "minimal"
          blocks := { blocks := [], count := 0, severeCount := none, severity := "none" }
          repetitions := { repetitions := [], count := 0 }
          paceVariation := { segments := [], variation := 0, consistency := "unknown", averageWpm := none }
          recommendations := [Recommendation.card "🎉" "Excellent fluency! Keep up the great practice." "low"]
          wordCount := ws.length }) ∧
    ((generatePerformanceReport emptyInput).summary.clarityScore = 70 ∧
     (generatePerformanceReport emptyInput).summary.habitsScore = 43 ∧
     (generatePerformanceReport emptyInput).summary.fluencyScore = some 100 ∧
     (generatePerformanceReport emptyInput).summary.overallScore = some 36 ∧
     (generatePerformanceReport emptyInput).recommendations ≠ []) := by
  refine ⟨?_, ?_, ?_, ?_, ?_, ?_, ?_, ?_, ?_, ?_⟩
  · intro t h
    simp [detectFillerWords, h]
  · intro ws h
    simp [analyzeStrategicPauses, h]
  · intro t h
    simp [detectHedgingLanguage, h]
  · intro ws h
    simp [analyzeRateVariability, h]
  · intro vh ws h
    simp [analyzeVolumePatterns, h]
  · intro t h
    simp [analyzeThoughtCompletion, h]
  · intro t h
    simp [detectFrameworks, h]
  · intro t h
    simp [detectAnalogies, h]
  · intro ws h
    have h5 : ws.length < 5 := by omega
    simp [generateStutteringReport, detectBlocks, detectRepetitions, analyzePaceVariation,
      generateStutteringRecommendations, h, h5]
  · refine ⟨?_, ?_, rfl, ?_, ?_⟩
    · norm_num [generatePerformanceReport, emptyInput, calculateWPM, detectFillerWords,
        calculateClarityScore, strFalsy, clamp100, jsRound]
    · norm_num [generatePerformanceReport, emptyInput, calculateWPM, detectFillerWords,
        detectHedgingLanguage, analyzeStrategicPauses, analyzeRateVariability,
        analyzeVolumePatterns, analyzeThoughtCompletion, detectFrameworks, detectAnalogies,
        calculateClarityScore, strFalsy, clamp100, jsRound]
    · norm_num [generatePerformanceReport, emptyInput, calculateWPM, detectFillerWords,
        detectHedgingLanguage, analyzeStrategicPauses, analyzeRateVariability,
        analyzeVolumePatterns, analyzeThoughtCompletion, detectFrameworks, detectAnalogies,
        calculateClarityScore, strFalsy, clamp100, jsRound]
    · exact take8_ne_nil _ (by
        intro hc
        simp only [List.append_eq_nil] at hc
        exact generateRecommendations_ne_nil _ _ _ _ hc.2)

/-- Closed instantiation of `c8_analyzers_degrade_gracefully` at concrete
degenerate inputs, discharging the guard hypotheses. -/
theorem c8_analyzers_degrade_gracefully_witness :
    strFalsy none = true ∧
    detectFillerWords none = { count := 0, occurrences := [], positions := [] } ∧
    ([⟨"one", 0, 1⟩] : List Word).length < 5 ∧
    analyzeStrategicPauses [⟨"one", 0, 1⟩] =
      { totalPauses := 0, strategicPauses := 0, shortPauses := 0
        tooLongPauses := 0, avgPauseDuration := 0, pauseScore := 50
        pauseDistribution := [], feedback := "Not enough data for pause analysis" } ∧
    ([] : List VolumeSample).length < 5 ∧
    analyzeVolumePatterns [] [] =
      { avgVolume := 0, volumeScore := 50, hasTrailingOff := false
        volumeVariation := 0, feedback := "Not enough volume data", history := none } :=
  ⟨rfl, c8_analyzers_degrade_gracefully.1 none rfl, by decide,
   c8_analyzers_degrade_gracefully.2.1 [⟨"one", 0, 1⟩] (by decide), by decide,
   c8_analyzers_degrade_gracefully.2.2.2.2.1 [] [] (by decide)⟩

/-! ### Claim C9 -/

/-- C9: the habit-driven recommendation generator reads only the pause,
hedging/filler and rate-variability analyses: its output is unchanged by any
modification of the volume, thought-completion, framework and analogy fields
of its argument, and it emits no item unless one of the documented
pause/filler-hedging/declarative/rate conditions fires. -/
theorem c9_habits_recs_use_only_four_fields :
    (∀ a b : HabitsRecsInput,
      a.strategicPauses = b.strategicPauses →
      a.hedgingAnalysis = b.hedgingAnalysis →
      a.rateVariability = b.rateVariability →
      a.fillerAnalysis = b.fillerAnalysis →
      generateHabitsRecommendations a = generateHabitsRecommendations b) ∧
    (∀ a : HabitsRecsInput,
      generateHabitsRecommendations a = [] ↔
        (¬ a.strategicPauses.pauseScore < 60 ∧
         ¬ (5 < a.fillerAnalysis.count ∨ 3 < a.hedgingAnalysis.hedgingCount) ∧
         ¬ a.hedgingAnalysis.declarativeScore < 70 ∧
         ¬ a.rateVariability.variabilityScore < 60)) := by
  constructor
  · intro a b h1 h2 h3 h4
    simp only [generateHabitsRecommendations, h1, h2, h3, h4]
  · intro a
    unfold generateHabitsRecommendations
    split_ifs <;> simp_all

/-- Closed instantiation of `c9_habits_recs_use_only_four_fields`: the two
argument objects differ exactly in the four ignored fields, and the
generated recommendations coincide. -/
theorem c9_habits_recs_use_only_four_fields_witness :
    c9A.strategicPauses = c9B.strategicPauses ∧
    c9A.hedgingAnalysis = c9B.hedgingAnalysis ∧
    c9A.rateVariability = c9B.rateVariability ∧
    c9A.fillerAnalysis = c9B.fillerAnalysis ∧
    generateHabitsRecommendations c9A = generateHabitsRecommendations c9B :=
  ⟨rfl, rfl, rfl, rfl,
   c9_habits_recs_use_only_four_fields.1 c9A c9B rfl rfl rfl rfl⟩

/-! ### Claim C10 -/

/-- C10: the empty/absent-transcript defaults are not uniform: hedging
returns a declarative score of 100, frameworks and analogies return 0, and
only thought completion returns the neutral 50. -/
theorem c10_empty_transcript_defaults (t : Option String) (h : strFalsy t = true) :
    (detectHedgingLanguage t).declarativeScore = 100 ∧
    (detectFrameworks t).frameworkScore = 0 ∧
    (detectAnalogies t).analogyScore = 0 ∧
    (analyzeThoughtCompletion t).completionScore = 50 := by
  refine ⟨?_, ?_, ?_, ?_⟩ <;>
    simp [detectHedgingLanguage, detectFrameworks, detectAnalogies,
      analyzeThoughtCompletion, h]

/-- Closed instantiation of `c10_empty_transcript_defaults` at the absent
transcript. -/
theorem c10_empty_transcript_defaults_witness :
    strFalsy none = true ∧
    (detectHedgingLanguage none).declarativeScore = 100 ∧
    (detectFrameworks none).frameworkScore = 0 ∧
    (detectAnalogies none).analogyScore = 0 ∧
    (analyzeThoughtCompletion none).completionScore = 50 :=
  ⟨rfl, (c10_empty_transcript_defaults none rfl).1,
   (c10_empty_transcript_defaults none rfl).2.1,
   (c10_empty_transcript_defaults none rfl).2.2.1,
   (c10_empty_transcript_defaults none rfl).2.2.2⟩


/-! ### Score-range lemmas

The amended form of the range property: every score is in `[0, 100]`
whenever it is a number at all (the NaN corner of claim C2 aside). -/

theorem clamp100_range (q : ℚ) : InRange (clamp100 q) := by
  constructor
  · exact le_max_left 0 _
  · exact max_le (by norm_num) (min_le_left _ _)

theorem jsRound_nonneg {q : ℚ} (h : 0 ≤ q) : 0 ≤ jsRound q := by
  unfold jsRound
  have h1 : (0 : ℤ) ≤ ⌊q + 1/2⌋ := Int.floor_nonneg.mpr (by linarith)
  exact_mod_cast h1

theorem jsRound_le_100 {q : ℚ} (h : q ≤ 100) : jsRound q ≤ 100 := by
  unfold jsRound
  have h1 : ⌊q + 1/2⌋ ≤ ⌊(100 : ℚ) + 1/2⌋ := Int.floor_le_floor (by linarith)
  have h2 : ⌊(100 : ℚ) + 1/2⌋ = 100 := by
    rw [Int.floor_eq_iff]
    norm_num
  rw [h2] at h1
  exact_mod_cast h1

theorem pauseScore_range (ws : List Word) : InRange (analyzeStrategicPauses ws).pauseScore := by
  unfold analyzeStrategicPauses
  split
  · exact ⟨by norm_num, by norm_num⟩
  · exact clamp100_range _

theorem declarativeScore_range (t : Option String) :
    InRange (detectHedgingLanguage t).declarativeScore := by
  unfold detectHedgingLanguage
  split
  · exact ⟨by norm_num, by norm_num⟩
  · exact clamp100_range _

theorem variabilityScore_range (ws : List Word) :
    InRange (analyzeRateVariability ws).variabilityScore := by
  unfold analyzeRateVariability
  split
  · exact ⟨by norm_num, by norm_num⟩
  · simp only []
    split_ifs <;> exact ⟨by norm_num, by norm_num⟩

theorem volumeScore_range (vh : List VolumeSample) (ws : List Word) :
    InRange (analyzeVolumePatterns vh ws).volumeScore := by
  unfold analyzeVolumePatterns
  split
  · exact ⟨by norm_num, by norm_num⟩
  · exact clamp100_range _

theorem completionScore_range (t : Option String) :
    InRange (analyzeThoughtCompletion t).completionScore := by
  unfold analyzeThoughtCompletion
  split
  · exact ⟨by norm_num, by norm_num⟩
  · exact clamp100_range _

theorem frameworkScore_range (t : Option String) :
    InRange (detectFrameworks t).frameworkScore := by
  unfold detectFrameworks
  split
  · exact ⟨by norm_num, by norm_num⟩
  · simp only []
    split_ifs <;> exact ⟨jsRound_nonneg (by norm_num), jsRound_le_100 (by norm_num)⟩

theorem analogyScore_range (t : Option String) :
    InRange (detectAnalogies t).analogyScore := by
  unfold detectAnalogies
  split
  · exact ⟨by norm_num, by norm_num⟩
  · simp only []
    split_ifs <;> exact ⟨by norm_num, by norm_num⟩

theorem clarityScore_range (wpm : ℚ) (fc wc : ℕ) :
    InRange (calculateClarityScore wpm fc wc) :=
  clamp100_range _

theorem calculateWPM_nonneg (t : Option String) (ms : ℚ) : 0 ≤ calculateWPM t ms := by
  unfold calculateWPM
  split
  · norm_num
  · next h =>
    push_neg at h
    exact jsRound_nonneg (div_nonneg (Nat.cast_nonneg _) (by linarith [h.2]))

theorem stuttering_fluency_range (ws : List Word) (q : ℚ)
    (h : (generateStutteringReport ws).fluencyScore = some q) : InRange q := by
  unfold generateStutteringReport at h
  simp only [] at h
  rcases hsc : (detectBlocks ws).severeCount with _ | sc
  · rw [hsc] at h
    exact Option.noConfusion h
  · rw [hsc] at h
    simp only [Option.some.injEq] at h
    rw [← h]
    exact clamp100_range _

theorem habits_weighted_range {p r d v c f a : ℚ}
    (hp : InRange p) (hr : InRange r) (hd : InRange d) (hv : InRange v)
    (hc : InRange c) (hf : InRange f) (ha : InRange a) :
    InRange (jsRound (p * 0.15 + r * 0.10 + d * 0.15 + v * 0.15 +
      c * 0.15 + f * 0.15 + a * 0.15)) := by
  obtain ⟨hp0, hp1⟩ := hp
  obtain ⟨hr0, hr1⟩ := hr
  obtain ⟨hd0, hd1⟩ := hd
  obtain ⟨hv0, hv1⟩ := hv
  obtain ⟨hc0, hc1⟩ := hc
  obtain ⟨hf0, hf1⟩ := hf
  obtain ⟨ha0, ha1⟩ := ha
  exact ⟨jsRound_nonneg (by linarith), jsRound_le_100 (by linarith)⟩

theorem overall_weighted_range {cl fl hb m e po : ℚ}
    (hcl : InRange cl) (hfl : InRange fl) (hhb : InRange hb)
    (hm : InRange m) (he : InRange e) (hpo : InRange po) :
    InRange (jsRound (cl * 0.15 + fl * 0.10 + hb * 0.35 + m * 0.10 +
      e * 0.15 + po * 0.15)) := by
  obtain ⟨h1, h2⟩ := hcl
  obtain ⟨h3, h4⟩ := hfl
  obtain ⟨h5, h6⟩ := hhb
  obtain ⟨h7, h8⟩ := hm
  obtain ⟨h9, h10⟩ := he
  obtain ⟨h11, h12⟩ := hpo
  exact ⟨jsRound_nonneg (by linarith), jsRound_le_100 (by linarith)⟩

theorem min_wpm_range {wpm : ℚ} (h : 0 ≤ wpm) : InRange (min 100 (wpm / 1.5)) := by
  constructor
  · exact le_min (by norm_num) (by positivity)
  · exact min_le_left _ _

/-- Every score of the report is in `[0, 100]` whenever it is a number:
the ten scores of the range claim, with the two NaN-capable ones
(`fluencyScore`, `overallScore`) stated for their numeric values. -/
theorem report_scores_in_range (data : AnalysisInput)
    (heye : InRange data.eyeContactPercentage) (hpost : InRange data.postureScore)
    (hflu : ∀ r : StutteringReport, data.stutteringReport = some r →
      ∀ q : ℚ, r.fluencyScore = some q → InRange q) :
    InRange (generatePerformanceReport data).speech.pauses.pauseScore ∧
    InRange (generatePerformanceReport data).habits.delivery.declarative.declarativeScore ∧
    InRange (generatePerformanceReport data).habits.delivery.rate.variabilityScore ∧
    InRange (generatePerformanceReport data).habits.vocal.volume.volumeScore ∧
    InRange (generatePerformanceReport data).habits.cognitive.thoughtCompletion.completionScore ∧
    InRange (generatePerformanceReport data).habits.cognitive.frameworks.frameworkScore ∧
    InRange (generatePerformanceReport data).habits.cognitive.analogies.analogyScore ∧
    InRange (generatePerformanceReport data).summary.clarityScore ∧
    InRange (generatePerformanceReport data).summary.habitsScore ∧
    (∀ q : ℚ, (generatePerformanceReport data).summary.fluencyScore = some q → InRange q) ∧
    (∀ q : ℚ, (generatePerformanceReport data).summary.overallScore = some q → InRange q) := by
  have hfl : ∀ q : ℚ, (generatePerformanceReport data).summary.fluencyScore = some q → InRange q := by
    intro q h
    have he : (generatePerformanceReport data).summary.fluencyScore =
        (match data.stutteringReport with
          | some r => r.fluencyScore
          | none => some 100) := rfl
    rw [he] at h
    rcases hsr : data.stutteringReport with _ | r
    · rw [hsr] at h
      have h100 : q = 100 := by
        have := h
        simp only [Option.some.injEq] at this
        exact this.symm
      rw [h100]
      exact ⟨by norm_num, by norm_num⟩
    · rw [hsr] at h
      exact hflu r hsr q h
  have hhb : InRange (generatePerformanceReport data).summary.habitsScore := by
    show InRange (jsRound (
      (analyzeStrategicPauses data.words).pauseScore * 0.15 +
      (analyzeRateVariability data.words).variabilityScore * 0.10 +
      (detectHedgingLanguage data.transcript).declarativeScore * 0.15 +
      (analyzeVolumePatterns data.volumeHistory data.words).volumeScore * 0.15 +
      (analyzeThoughtCompletion data.transcript).completionScore * 0.15 +
      (detectFrameworks data.transcript).frameworkScore * 0.15 +
      (detectAnalogies data.transcript).analogyScore * 0.15))
    exact habits_weighted_range (pauseScore_range _) (variabilityScore_range _)
      (declarativeScore_range _) (volumeScore_range _ _) (completionScore_range _)
      (frameworkScore_range _) (analogyScore_range _)
  refine ⟨?_, ?_, ?_, ?_, ?_, ?_, ?_, ?_, hhb, hfl, ?_⟩
  · show InRange (analyzeStrategicPauses data.words).pauseScore
    exact pauseScore_range _
  · show InRange (detectHedgingLanguage data.transcript).declarativeScore
    exact declarativeScore_range _
  · show InRange (analyzeRateVariability data.words).variabilityScore
    exact variabilityScore_range _
  · show InRange (analyzeVolumePatterns data.volumeHistory data.words).volumeScore
    exact volumeScore_range _ _
  · show InRange (analyzeThoughtCompletion data.transcript).completionScore
    exact completionScore_range _
  · show InRange (detectFrameworks data.transcript).frameworkScore
    exact frameworkScore_range _
  · show InRange (detectAnalogies data.transcript).analogyScore
    exact analogyScore_range _
  · show InRange (calculateClarityScore (calculateWPM data.transcript data.durationMs)
      (detectFillerWords data.transcript).count
      (match data.transcript with
        | none => 0
        | some t => if t == "" then 0 else (splitWs t.trim).length))
    exact clarityScore_range _ _ _
  intro q h
  have he : (generatePerformanceReport data).summary.overallScore =
      ((generatePerformanceReport data).summary.fluencyScore).map (fun f => jsRound (
        (generatePerformanceReport data).summary.clarityScore * 0.15 +
        f * 0.10 +
        (generatePerformanceReport data).summary.habitsScore * 0.35 +
        min 100 ((generatePerformanceReport data).summary.wpm / 1.5) * 0.10 +
        data.eyeContactPercentage * 0.15 +
        data.postureScore * 0.15)) := rfl
  rw [he] at h
  rcases hf : (generatePerformanceReport data).summary.fluencyScore with _ | f
  · rw [hf] at h
    exact Option.noConfusion h
  · rw [hf] at h
    simp only [Option.map_some', Option.some.injEq] at h
    rw [← h]
    have hwpm : (generatePerformanceReport data).summary.wpm =
        calculateWPM data.transcript data.durationMs := rfl
    exact overall_weighted_range (clarityScore_range _ _ _) (hfl f hf) hhb
      (by rw [hwpm]; exact min_wpm_range (calculateWPM_nonneg _ _)) heye hpost

/-- Closed instantiation of `report_scores_in_range`: on the empty input the
hypotheses hold trivially and the numeric scores are in range. -/
theorem report_scores_in_range_witness :
    InRange (0 : ℚ) ∧
    InRange (generatePerformanceReport emptyInput).summary.habitsScore :=
  ⟨⟨by norm_num, by norm_num⟩,
   (report_scores_in_range emptyInput ⟨by norm_num [emptyInput], by norm_num [emptyInput]⟩
     ⟨by norm_num [emptyInput], by norm_num [emptyInput]⟩
     (fun r hr => Option.noConfusion hr)).2.2.2.2.2.2.2.2.1⟩

end Teleprompter
